import Mathlib

/-!
Verification development for the Heroku AppLink API-access sample
(Node.js / Express).  The file shallowly embeds the two pieces of logic
original to that repository — the multi-connection query fan-out in the
`GET /` handler and the asynchronous bulk-job monitor `monitorBulkJob` —
together with the `/bulk-demo` guard and the `generateBusinessName`
helper, and proves the specification's properties P1–P6 and related
claims about them.

The external `@heroku/applink` SDK is modelled as a capability record
(`Env`): session resolution and query execution are functions that may
fail (`Except`), mirroring JavaScript exceptions.  JavaScript promise
scheduling is modelled explicitly where a claim is about completion
order (`promiseAllRun`).
-/

namespace AppLink

/-- An authorized org session, as consumed by the handler
(`org.id`, `org.user.username`). -/
structure Org where
  id : String
  username : String
deriving Repr, DecidableEq

/-- A record returned by the external query engine: a bag of named
fields (`record.fields`), modelled as an association list. -/
structure SFRecord where
  fields : List (String × String)
deriving Repr, DecidableEq

/-- The shape returned by `org.dataApi.query`. -/
structure QueryResult where
  totalSize : Nat
  done : Bool
  records : List SFRecord
deriving Repr, DecidableEq

/-- The external-SDK capability surface used by the `GET /` handler:
`getAuthorization` resolves a connection name to an org session, and
`query` executes a query text against the org resolved from a given
(trimmed) connection name.  Both may raise, modelled by `Except`. -/
structure Env where
  getAuthorization : String → Except String Org
  query : String → String → Except String QueryResult

/-- JavaScript property lookup `r.fields[k]`: `none` models `undefined`. -/
def lookupField (r : SFRecord) (key : String) : Option String :=
  (r.fields.find? fun p => p.1 == key).map Prod.snd

/-- The projection `(record) => ({ Name: record.fields.Name, Id:
record.fields.Id })` from the handler: the produced row is an object
with exactly the keys `Name` and `Id`. -/
def projectRecord (r : SFRecord) : List (String × Option String) :=
  [("Name", lookupField r "Name"), ("Id", lookupField r "Id")]

/-- One element of `accountsByOrg`: `{connectionName, accounts}` on
success, `{connectionName, error, accounts: []}` on failure.  The
optional `error` field models the presence/absence of the `error` key. -/
structure PerConnectionOutcome where
  connectionName : String
  accounts : List (List (String × Option String))
  error : Option String
deriving Repr, DecidableEq

/-- JavaScript `s.trim()`: remove leading and trailing whitespace. -/
def jsTrim (s : String) : String :=
  String.mk (((s.data.dropWhile Char.isWhitespace).reverse.dropWhile Char.isWhitespace).reverse)

/-- The per-connection async closure of the `GET /` handler: resolve the
trimmed connection name, run the query, project records; any raise is
caught and converted into the failure-shaped outcome carrying the
error's message. -/
def queryConnection (env : Env) (queryText : String) (connectionName : String) :
    PerConnectionOutcome :=
  match env.getAuthorization (jsTrim connectionName) with
  | .error e => { connectionName := jsTrim connectionName, accounts := [], error := some e }
  | .ok _org =>
    match env.query (jsTrim connectionName) queryText with
    | .error e => { connectionName := jsTrim connectionName, accounts := [], error := some e }
    | .ok queryResult =>
      { connectionName := jsTrim connectionName
        accounts := queryResult.records.map projectRecord
        error := none }

/-- The fan-out runner (the spec's `runQuery` contract): one outcome per
input connection name, positionally.  `Promise.all` over
`connectionNames.map` resolves positionally, which this `List.map`
denotes; `promiseAllRun` below justifies the completion-order
independence. -/
def runQuery (env : Env) (connectionNames : List String) (queryText : String) :
    List PerConnectionOutcome :=
  connectionNames.map (queryConnection env queryText)

/-- The query text hard-coded in the `GET /` handler. -/
def soqlQuery : String := "SELECT Name, Id FROM Account"

/-- `accountsByOrg` as computed by the `GET /` handler body. -/
def accountsByOrg (env : Env) (connectionNames : List String) :
    List PerConnectionOutcome :=
  connectionNames.map fun connectionName => queryConnection env soqlQuery connectionName

/-- Scheduled semantics of `Promise.all`: each task's result is written
into its own slot when it completes; `order` is the order in which the
tasks happen to complete.  The output array is read positionally at the
end. -/
def promiseAllRun {α : Type} (tasks : List α) (order : List Nat) : List (Option α) :=
  order.foldl (fun slots i => slots.set i tasks[i]?) (List.replicate tasks.length none)

/-! ## Bulk Job Monitor (`monitorBulkJob`) -/

/-- The shape returned by `org.bulkApi.getInfo`: a Bulk Job Status
Snapshot. -/
structure JobInfo where
  state : String
  numberRecordsProcessed : Nat
  numberRecordsFailed : Nat
deriving Repr, DecidableEq

/-- `['JobComplete', 'Failed', 'Aborted'].includes(state)` — the
`isComplete` test of the monitor loop. -/
def isTerminalState (state : String) : Bool :=
  (["JobComplete", "Failed", "Aborted"] : List String).contains state

/-- Observable actions of `monitorBulkJob`, in the order they occur:
calls to the external collaborator, log lines, and timer suspensions. -/
inductive MonitorEvent where
  | poll
  | logStatus (info : JobInfo)
  | sleep (ms : Nat)
  | fetchFailedResults
  | logFailedRecords (results : List String)
  | logSuccess (jobId : String) (processed : Nat)
  | logTerminalError (jobId : String) (state : String)
  | logMonitorError (msg : String)
deriving Repr, DecidableEq

/-- The terminal branch of the monitor loop (the body of
`if (isComplete)`): success log, failed-record fetch + log, or
terminal-state error log.  A raise during the fetch falls through to the
outer catch. -/
def finalizeEvents (getFailed : Except String (List String)) (jobId : String)
    (info : JobInfo) : List MonitorEvent :=
  if info.state = "JobComplete" then
    if 0 < info.numberRecordsFailed then
      match getFailed with
      | .error e => [.fetchFailedResults, .logMonitorError e]
      | .ok results => [.fetchFailedResults, .logFailedRecords results]
    else [.logSuccess jobId info.numberRecordsProcessed]
  else [.logTerminalError jobId info.state]

/-- The `while (!isComplete)` loop of `monitorBulkJob`, as a trace
semantics.  `getInfo i` is the snapshot returned by the `(i+1)`-th call
to `org.bulkApi.getInfo` (a raise is `.error`); `fuel` bounds how many
iterations we unfold, and `none` means the loop has not terminated
within `fuel` iterations.  A raise from a poll or from the failed-record
fetch jumps to the outer catch, which logs and returns (the loop is
never resumed). -/
def monitorLoop (getInfo : Nat → Except String JobInfo)
    (getFailed : Except String (List String)) (jobId : String) :
    Nat → Nat → Option (List MonitorEvent)
  | 0, _ => none
  | fuel + 1, i =>
    match getInfo i with
    | .error e => some [.poll, .logMonitorError e]
    | .ok jobInfo =>
      if isTerminalState jobInfo.state then
        some ([.poll, .logStatus jobInfo] ++ finalizeEvents getFailed jobId jobInfo)
      else
        match monitorLoop getInfo getFailed jobId fuel (i + 1) with
        | none => none
        | some rest => some ([.poll, .logStatus jobInfo, .sleep 5000] ++ rest)

/-- `monitorBulkJob(org, result)`: run the monitor loop from the first
poll.  The function returns a plain trace (no error channel): every
exception is absorbed by the function's own try/catch. -/
def monitorBulkJob (getInfo : Nat → Except String JobInfo)
    (getFailed : Except String (List String)) (jobId : String) (fuel : Nat) :
    Option (List MonitorEvent) :=
  monitorLoop getInfo getFailed jobId fuel 0

/-- Number of `poll` events in a trace. -/
def countPolls (tr : List MonitorEvent) : Nat :=
  tr.countP fun e => match e with | .poll => true | _ => false

/-- Number of 5000 ms `sleep` suspensions in a trace. -/
def countSleeps (tr : List MonitorEvent) : Nat :=
  tr.countP fun e => match e with | .sleep ms => ms == 5000 | _ => false

/-- Number of `getFailedResults` calls in a trace. -/
def countFetches (tr : List MonitorEvent) : Nat :=
  tr.countP fun e => match e with | .fetchFailedResults => true | _ => false

/-- Number of success log lines in a trace. -/
def countSuccessLogs (tr : List MonitorEvent) : Nat :=
  tr.countP fun e => match e with | .logSuccess _ _ => true | _ => false

/-! ## `/bulk-demo` gate and configured connection names -/

/-- Split a character list at commas (JavaScript `s.split(',')` over the
character sequence): always at least one piece, empty pieces kept. -/
def splitCommaChars : List Char → List (List Char)
  | [] => [[]]
  | c :: cs =>
    match splitCommaChars cs with
    | [] => [[c]]
    | piece :: rest =>
      if c = ',' then [] :: piece :: rest else (c :: piece) :: rest

/-- JavaScript `s.split(',')`. -/
def jsSplitComma (s : String) : List String :=
  (splitCommaChars s.data).map String.mk

/-- `process.env.CONNECTION_NAMES ? process.env.CONNECTION_NAMES.split(',') : []`:
an unset or empty (falsy) variable yields `[]`, otherwise a raw split on
commas with no trimming. -/
def connectionNamesOf : Option String → List String
  | none => []
  | some s => if s = "" then [] else jsSplitComma s

/-- Outcome of the guard at the top of the `GET /bulk-demo` handler. -/
inductive BulkDemoGate where
  | proceed
  | reject (status : Nat) (message : String)
deriving Repr, DecidableEq

/-- `if (!connectionNames.includes('empty-org')) return res.status(400)
.send('empty-org connection not found')`. -/
def bulkDemoGate (connectionNames : List String) : BulkDemoGate :=
  if connectionNames.contains "empty-org" then .proceed
  else .reject 400 "empty-org connection not found"

/-- The existence-check query the `/bulk-demo` handler issues before
submitting a bulk job. -/
def existingRecordsQuery : String :=
  "SELECT Id FROM Account WHERE Name LIKE 'Bulk Account%'"

/-- Whether a name matches the SQL pattern `'Bulk Account%'` used by
`existingRecordsQuery` (a pure prefix pattern). -/
def likeBulkAccount (s : String) : Bool :=
  decide (("Bulk Account".data : List Char) <+: s.data)

/-! ## `generateBusinessName` and the bulk data-table rows -/

/-- The `businessTypes` array. -/
def businessTypes : List String :=
  ["Tech", "Global", "Advanced", "Innovative", "Strategic", "Premier", "Elite",
   "Dynamic", "Pacific", "Atlantic", "Modern", "Future", "Smart", "Connected",
   "Digital", "Quantum", "Unified", "Integrated", "Precision", "Summit"]

/-- The `businessNames` array. -/
def businessNames : List String :=
  ["Solutions", "Systems", "Enterprises", "Industries", "Dynamics", "Partners",
   "Networks", "Technologies", "Services", "Innovations", "Analytics",
   "Consulting", "Operations", "Group", "Corporation", "Associates",
   "International", "Management", "Ventures", "Labs"]

/-- The `industries` array. -/
def industries : List String :=
  ["Manufacturing", "Software", "Healthcare", "Logistics", "Energy",
   "Communications", "Engineering", "Research", "Development", "Robotics"]

/-- JavaScript `s.slice(-4)`: the last four characters (the whole string
when shorter). -/
def jsSliceLast4 (s : String) : String :=
  String.mk (s.data.drop (s.data.length - 4))

/-- JavaScript `s.substring(a, b)` for `a ≤ b`. -/
def jsSubstring (s : String) (a b : Nat) : String :=
  String.mk ((s.data.drop a).take (b - a))

/-- JavaScript `s.toUpperCase()` (ASCII model). -/
def jsToUpperCase (s : String) : String :=
  String.mk (s.data.map Char.toUpper)

/-- The local `type` of `generateBusinessName`:
`businessTypes[Math.floor(Math.random() * businessTypes.length)]`, the
random draw modelled as `typeIdx % length`. -/
def gbnType (typeIdx : Nat) : String :=
  businessTypes.getD (typeIdx % businessTypes.length) ""

/-- The local `name` of `generateBusinessName`. -/
def gbnName (nameIdx : Nat) : String :=
  businessNames.getD (nameIdx % businessNames.length) ""

/-- The local `industry` of `generateBusinessName`. -/
def gbnIndustry (industryIdx : Nat) : String :=
  industries.getD (industryIdx % industries.length) ""

/-- The local `timestamp`: `Date.now().toString().slice(-4)`, with
`nowString` standing for `Date.now().toString()`. -/
def gbnTimestamp (nowString : String) : String := jsSliceLast4 nowString

/-- The local `randomSuffix`:
`Math.random().toString(36).substring(2, 5).toUpperCase()`, with
`randomString` standing for `Math.random().toString(36)`. -/
def gbnSuffix (randomString : String) : String :=
  jsToUpperCase (jsSubstring randomString 2 5)

/-- The `formats` array of `generateBusinessName`: every entry is the
literal prefix `'Bulk Account '` followed by random elements. -/
def gbnFormats (typeIdx nameIdx industryIdx : Nat)
    (nowString randomString : String) : List String :=
  ["Bulk Account " ++ (gbnType typeIdx ++ " " ++ gbnName nameIdx ++ " " ++ gbnSuffix randomString),
   "Bulk Account " ++ (gbnType typeIdx ++ " " ++ gbnIndustry industryIdx ++ " " ++ gbnSuffix randomString),
   "Bulk Account " ++ (gbnIndustry industryIdx ++ " " ++ gbnName nameIdx ++ " " ++ gbnTimestamp nowString),
   "Bulk Account " ++ (gbnType typeIdx ++ " " ++ gbnName nameIdx ++ " " ++ gbnIndustry industryIdx ++ " " ++ gbnSuffix randomString)]

/-- `generateBusinessName()`: pick a format at random; if the generated
name somehow exceeds 255 characters, fall back to the short format. -/
def generateBusinessName (typeIdx nameIdx industryIdx formatIdx : Nat)
    (nowString randomString : String) : String :=
  let formats := gbnFormats typeIdx nameIdx industryIdx nowString randomString
  let generatedName := formats.getD (formatIdx % formats.length) ""
  if generatedName.length > 255 then
    "Bulk Account " ++ (gbnType typeIdx ++ " " ++ gbnSuffix randomString)
  else generatedName

/-- The `Name` column of the 1000 rows added to the bulk data table by
the `/bulk-demo` handler's loop: row `i`'s name is a fresh
`generateBusinessName()` output, whose random draws are supplied by
`pick i`. -/
def bulkDataTableNames
    (pick : Nat → Nat × Nat × Nat × Nat × String × String) : List String :=
  (List.range 1000).map fun i =>
    match pick i with
    | (ti, ni, ii, fi, nowS, randS) => generateBusinessName ti ni ii fi nowS randS

/-! ## Concrete fixtures (used to instantiate the theorems below) -/

/-- A concrete org session. -/
def orgW : Org := { id := "00D1", username := "admin" }

/-- A concrete record carrying an extra `Industry` field beyond
`Name`/`Id`. -/
def recAcme : SFRecord :=
  { fields := [("Name", "Acme"), ("Id", "001"), ("Industry", "Tech")] }

/-- A concrete one-record query result. -/
def qrAcme : QueryResult := { totalSize := 1, done := true, records := [recAcme] }

/-- A concrete empty query result. -/
def qrEmpty : QueryResult := { totalSize := 0, done := true, records := [] }

/-- The spec's scenario-example environment: `org-a` resolves and
returns one record, every other connection name fails authorization
with `invalid_grant`. -/
def envW : Env :=
  { getAuthorization := fun n => if n = "org-a" then .ok orgW else .error "invalid_grant"
    query := fun n _q => if n = "org-a" then .ok qrAcme else .error "no query" }

/-- An environment in which every connection succeeds. -/
def envOkW : Env :=
  { getAuthorization := fun _n => .ok orgW
    query := fun n _q => if n = "org-b" then .ok qrEmpty else .ok qrAcme }

/-- `envOkW` perturbed so that exactly `org-b` fails authorization. -/
def envFailW : Env :=
  { getAuthorization := fun n => if n = "org-b" then .error "invalid_grant" else .ok orgW
    query := fun n _q => if n = "org-b" then .ok qrEmpty else .ok qrAcme }

/-- An environment whose query engine echoes the query text it was
handed back inside the record fields. -/
def envEchoW : Env :=
  { getAuthorization := fun _n => .ok orgW
    query := fun _n t => .ok { totalSize := 1, done := true, records := [{ fields := [("Name", t), ("Id", t)] }] } }

/-- `envEchoW` perturbed at every query text other than
`"SELECT Foo FROM Bar"`. -/
def envEchoX : Env :=
  { getAuthorization := fun _n => .ok orgW
    query := fun n t => if t = "SELECT Foo FROM Bar" then envEchoW.query n t
                        else .error "engine consulted at a different text" }

/-- A terminal, fully successful status snapshot. -/
def jobInfoJCW : JobInfo :=
  { state := "JobComplete", numberRecordsProcessed := 1000, numberRecordsFailed := 0 }

/-- A non-terminal status snapshot. -/
def jobInfoIPW : JobInfo :=
  { state := "InProgress", numberRecordsProcessed := 500, numberRecordsFailed := 0 }

/-- A terminal snapshot with failed records. -/
def jobInfoPartialW : JobInfo :=
  { state := "JobComplete", numberRecordsProcessed := 1000, numberRecordsFailed := 7 }

/-- Script: terminal at once. -/
def getInfoTermW : Nat → Except String JobInfo := fun _ => .ok jobInfoJCW

/-- Script: two non-terminal snapshots, then terminal. -/
def getInfoLoopW : Nat → Except String JobInfo :=
  fun i => if i < 2 then .ok jobInfoIPW else .ok jobInfoJCW

/-- Script: one non-terminal snapshot, then the poll raises. -/
def getInfoErrW : Nat → Except String JobInfo :=
  fun i => if i = 0 then .ok jobInfoIPW else .error "ECONNRESET"

/-- Script: terminal at once with failed records. -/
def getInfoPartialW : Nat → Except String JobInfo := fun _ => .ok jobInfoPartialW

/-- A concrete draw function for the bulk data-table rows. -/
def pickW : Nat → Nat × Nat × Nat × Nat × String × String :=
  fun _ => (0, 0, 0, 0, "1730000000000", "0.k7q2m9x")

/-! ## Helper lemmas -/

/-- After all completions have been folded in, slot `j` holds task `j`'s
result if slot `j` was ever written, and is untouched otherwise. -/
lemma foldl_set_getElem {α : Type} (tasks : List α) (order : List Nat)
    (slots : List (Option α)) (j : Nat) :
    (order.foldl (fun s i => s.set i tasks[i]?) slots)[j]? =
      if j ∈ order ∧ j < slots.length then some tasks[j]? else slots[j]? := by
  induction order generalizing slots with
  | nil => simp
  | cons i rest ih =>
    rw [List.foldl_cons, ih]
    by_cases hlen : j < slots.length
    · by_cases hmem : j ∈ rest
      · simp [List.length_set, hlen, hmem]
      · by_cases hij : j = i
        · subst hij
          simp [List.length_set, hlen, hmem, List.getElem?_set]
        · simp [List.length_set, hlen, hmem, List.getElem?_set, hij,
            List.getElem_set_ne (Ne.symm hij)]
    · have h1 : slots[j]? = none := List.getElem?_eq_none (Nat.le_of_not_lt hlen)
      by_cases hij : i = j
      · subst hij
        simp [List.length_set, hlen, List.getElem?_set, h1]
      · simp [List.length_set, hlen, List.getElem?_set, hij, h1]

/-- If every task index eventually completes, `Promise.all` assembles
exactly the positional result list, whatever the completion order. -/
lemma promiseAllRun_complete {α : Type} (tasks : List α) (order : List Nat)
    (h : ∀ i, i < tasks.length → i ∈ order) :
    promiseAllRun tasks order = tasks.map some := by
  apply List.ext_getElem?
  intro j
  rw [promiseAllRun, foldl_set_getElem, List.length_replicate]
  by_cases hj : j < tasks.length
  · simp [h j hj, hj, List.getElem?_eq_getElem hj, List.getElem?_map]
  · simp [hj, List.getElem?_replicate, List.getElem?_map,
      List.getElem?_eq_none (Nat.le_of_not_lt hj)]

/-- The `connectionName` of every outcome is the trimmed input name, in
the success shape and in both failure shapes alike. -/
lemma queryConnection_connectionName (env : Env) (q n : String) :
    (queryConnection env q n).connectionName = jsTrim n := by
  rcases ha : env.getAuthorization (jsTrim n) with e | o
  · simp [queryConnection, ha]
  · rcases hq : env.query (jsTrim n) q with e | qr <;> simp [queryConnection, ha, hq]

/-- The per-connection closure consults the environment only at the
trimmed connection name. -/
lemma queryConnection_local (env env' : Env) (q n : String)
    (hauth : env'.getAuthorization (jsTrim n) = env.getAuthorization (jsTrim n))
    (hq : env'.query (jsTrim n) q = env.query (jsTrim n) q) :
    queryConnection env' q n = queryConnection env q n := by
  simp [queryConnection, hauth, hq]

/-! ## C1 — fan-out ordering -/

/-- C1: the fan-out runner returns exactly one outcome per input
connection name, positionally (outcome `i` is the per-connection result
for name `i`), the scheduled `Promise.all` semantics assembles this same
positional list under every completion order, and an empty input yields
an empty output. -/
theorem fanout_ordering (env : Env) (queryText : String) (names : List String)
    (order : List Nat) (horder : ∀ i, i < names.length → i ∈ order) :
    (runQuery env names queryText).length = names.length
    ∧ (∀ (i : Nat) (n : String), names[i]? = some n →
        (runQuery env names queryText)[i]? = some (queryConnection env queryText n))
    ∧ promiseAllRun (names.map (queryConnection env queryText)) order
        = (runQuery env names queryText).map some
    ∧ runQuery env ([] : List String) queryText = [] := by
  refine ⟨by simp [runQuery], ?_, ?_, rfl⟩
  · intro i n hn
    have hmap := List.getElem?_map (queryConnection env queryText) names i
    rw [runQuery, hmap, hn]
    rfl
  · rw [runQuery]
    exact promiseAllRun_complete _ order (by simpa using horder)

/-- C1 witness: the two-connection scenario, with the second connection
completing before the first. -/
theorem fanout_ordering_witness :
    (runQuery envW ["org-a", "org-b"] soqlQuery).length = 2
    ∧ (runQuery envW ["org-a", "org-b"] soqlQuery)[1]? =
        some (queryConnection envW soqlQuery "org-b")
    ∧ promiseAllRun (["org-a", "org-b"].map (queryConnection envW soqlQuery)) [1, 0]
        = (runQuery envW ["org-a", "org-b"] soqlQuery).map some
    ∧ runQuery envW ([] : List String) soqlQuery = [] := by
  have h := fanout_ordering envW soqlQuery ["org-a", "org-b"] [1, 0] (by decide)
  exact ⟨h.1, h.2.1 1 "org-b" rfl, h.2.2.1, h.2.2.2⟩

/-! ## C2 — per-connection error isolation -/

/-- C2: if connection `k`'s session resolution or query raises with
message `e` (in environment `env'`, which agrees with `env` away from
connection `k`'s lookup key), outcome `k` is the failure shape
`{connectionName, accounts: [], error: e}`, and every outcome whose
trimmed name differs from connection `k`'s is exactly what it is in the
unperturbed environment.  `runQuery` is total, so no exception reaches
the caller. -/
theorem fanout_isolation (env env' : Env) (q : String) (names : List String)
    (k : Nat) (nk : String) (e : String)
    (hk : names[k]? = some nk)
    (hfail : env'.getAuthorization (jsTrim nk) = .error e ∨
      ∃ o, env'.getAuthorization (jsTrim nk) = .ok o ∧
        env'.query (jsTrim nk) q = .error e)
    (hagree : ∀ m, m ≠ jsTrim nk →
      env'.getAuthorization m = env.getAuthorization m ∧
        env'.query m q = env.query m q) :
    (runQuery env' names q)[k]? =
      some { connectionName := jsTrim nk, accounts := [], error := some e }
    ∧ (∀ (i : Nat) (ni : String), names[i]? = some ni → jsTrim ni ≠ jsTrim nk →
        (runQuery env' names q)[i]? = (runQuery env names q)[i]?) := by
  constructor
  · have hmap := List.getElem?_map (queryConnection env' q) names k
    rw [runQuery, hmap, hk]
    rcases hfail with h | ⟨o, ho, hq⟩
    · simp [queryConnection, h]
    · simp [queryConnection, ho, hq]
  · intro i ni hi hne
    have hmap' := List.getElem?_map (queryConnection env' q) names i
    have hmap := List.getElem?_map (queryConnection env q) names i
    rw [runQuery, runQuery, hmap, hmap', hi]
    obtain ⟨ha, hq⟩ := hagree (jsTrim ni) hne
    rw [Option.map_some', Option.map_some', queryConnection_local env env' q ni ha hq]

/-- C2 witness: `org-b` fails authorization with `invalid_grant`;
outcome 1 is the failure shape and outcome 0 (`org-a`) is unchanged
from the all-success environment. -/
theorem fanout_isolation_witness :
    (runQuery envFailW ["org-a", "org-b"] soqlQuery)[1]? =
      some { connectionName := "org-b", accounts := [], error := some "invalid_grant" }
    ∧ (runQuery envFailW ["org-a", "org-b"] soqlQuery)[0]? =
        (runQuery envOkW ["org-a", "org-b"] soqlQuery)[0]? := by
  have h := fanout_isolation envOkW envFailW soqlQuery ["org-a", "org-b"] 1 "org-b"
    "invalid_grant" rfl (Or.inl (by rfl))
    (by
      intro m hm
      have hm' : m ≠ "org-b" := fun hmm => hm (by rw [hmm]; decide)
      exact ⟨by simp [envFailW, envOkW, hm'], by simp [envFailW, envOkW]⟩)
  refine ⟨?_, h.2 0 "org-a" rfl (by decide)⟩
  have h1 := h.1
  rw [show jsTrim "org-b" = "org-b" by decide] at h1
  exact h1

/-! ## C6 — projection keeps exactly Name and Id -/

/-- C6: the row produced from a query record has exactly the keys
`Name` and `Id` (in that order): its value at `Name`/`Id` is the
record's corresponding field, lookup at any other key finds nothing, and
the successful outcome's accounts are exactly the record-wise
projections, so extra fields are dropped. -/
theorem projection_exact (r : SFRecord) (k : String)
    (hk1 : k ≠ "Name") (hk2 : k ≠ "Id") :
    (projectRecord r).map Prod.fst = ["Name", "Id"]
    ∧ ((projectRecord r).find? fun p => p.1 == "Name") =
        some ("Name", lookupField r "Name")
    ∧ ((projectRecord r).find? fun p => p.1 == "Id") =
        some ("Id", lookupField r "Id")
    ∧ ((projectRecord r).find? fun p => p.1 == k) = none
    ∧ (∀ (env : Env) (q n : String) (o : Org) (qr : QueryResult),
        env.getAuthorization (jsTrim n) = .ok o →
        env.query (jsTrim n) q = .ok qr →
        (queryConnection env q n).accounts = qr.records.map projectRecord) := by
  refine ⟨rfl, rfl, rfl, ?_, ?_⟩
  · have h1 : ("Name" == k) = false := beq_eq_false_iff_ne.mpr (Ne.symm hk1)
    have h2 : ("Id" == k) = false := beq_eq_false_iff_ne.mpr (Ne.symm hk2)
    simp [projectRecord, List.find?, h1, h2]
  · intro env q n o qr ho hq
    simp [queryConnection, ho, hq]

/-- C6 witness: a record with an extra `Industry` field projects to a
row with exactly `Name` and `Id`, the extra key being unfindable. -/
theorem projection_exact_witness :
    (projectRecord recAcme).map Prod.fst = ["Name", "Id"]
    ∧ ((projectRecord recAcme).find? fun p => p.1 == "Name") =
        some ("Name", some "Acme")
    ∧ ((projectRecord recAcme).find? fun p => p.1 == "Industry") = none
    ∧ (queryConnection envW soqlQuery "org-a").accounts =
        qrAcme.records.map projectRecord := by
  have h := projection_exact recAcme "Industry" (by decide) (by decide)
  exact ⟨h.1, by rw [h.2.1]; rfl, h.2.2.2.1,
    h.2.2.2.2 envW soqlQuery "org-a" orgW qrAcme rfl rfl⟩

/-! ## C7 — connection names are trimmed -/

/-- C7: the per-connection step uses only the trimmed connection name as
its lookup key (environments that agree at the trimmed key give the same
outcome), and the `connectionName` of the produced outcome — success or
failure shape — is the trimmed name. -/
theorem fanout_trims (env env' : Env) (q n : String)
    (hauth : env'.getAuthorization (jsTrim n) = env.getAuthorization (jsTrim n))
    (hq : env'.query (jsTrim n) q = env.query (jsTrim n) q) :
    (queryConnection env q n).connectionName = jsTrim n
    ∧ queryConnection env' q n = queryConnection env q n := by
  exact ⟨queryConnection_connectionName env q n,
    queryConnection_local env env' q n hauth hq⟩

/-- C7 witness: a padded name `"  org-a  "` is looked up and reported as
`"org-a"` (success shape), and `"  org-x  "` likewise in the failure
shape. -/
theorem fanout_trims_witness :
    (queryConnection envW soqlQuery "  org-a  ").connectionName = jsTrim "  org-a  "
    ∧ jsTrim "  org-a  " = "org-a"
    ∧ (queryConnection envW soqlQuery "  org-x  ").connectionName = "org-x"
    ∧ (queryConnection envW soqlQuery "  org-x  ").error = some "invalid_grant" := by
  refine ⟨(fanout_trims envW envW soqlQuery "  org-a  " rfl rfl).1, by decide, ?_, ?_⟩
  · rfl
  · rfl

/-! ## C8 — query text passed through verbatim -/

/-- C8: `runQuery` hands the caller's `queryText` to the external engine
unchanged: its result depends on the engine's behaviour only at exactly
`queryText` (environments agreeing there are indistinguishable), and the
`GET /` handler instantiates the contract at its literal SOQL text. -/
theorem runQuery_verbatim (env env' : Env) (names : List String) (q : String)
    (hauth : ∀ m, env'.getAuthorization m = env.getAuthorization m)
    (hq : ∀ m, env'.query m q = env.query m q) :
    runQuery env' names q = runQuery env names q
    ∧ accountsByOrg env' names = runQuery env' names soqlQuery := by
  constructor
  · rw [runQuery, runQuery]
    apply List.map_congr_left
    intro n _
    exact queryConnection_local env env' q n (hauth (jsTrim n)) (hq (jsTrim n))
  · rfl

/-- C8 witness: with an engine that echoes the query text it receives,
the fan-out's outcome carries the caller's text verbatim, and an engine
perturbed at every other text is indistinguishable. -/
theorem runQuery_verbatim_witness :
    runQuery envEchoX ["org-a"] "SELECT Foo FROM Bar" =
      runQuery envEchoW ["org-a"] "SELECT Foo FROM Bar"
    ∧ runQuery envEchoW ["org-a"] "SELECT Foo FROM Bar" =
        [{ connectionName := "org-a"
           accounts := [[("Name", some "SELECT Foo FROM Bar"), ("Id", some "SELECT Foo FROM Bar")]]
           error := none }] := by
  refine ⟨?_, by rfl⟩
  exact (runQuery_verbatim envEchoW envEchoX ["org-a"] "SELECT Foo FROM Bar"
    (fun m => rfl) (fun m => by simp [envEchoX])).1

/-! ## Monitor helper lemmas -/

lemma countPolls_append (a b : List MonitorEvent) :
    countPolls (a ++ b) = countPolls a + countPolls b :=
  List.countP_append _ _ _

lemma countSleeps_append (a b : List MonitorEvent) :
    countSleeps (a ++ b) = countSleeps a + countSleeps b :=
  List.countP_append _ _ _

lemma countFetches_append (a b : List MonitorEvent) :
    countFetches (a ++ b) = countFetches a + countFetches b :=
  List.countP_append _ _ _

/-- The finalize branch performs no polls and no suspensions. -/
lemma finalizeEvents_counts (gf : Except String (List String)) (jobId : String)
    (info : JobInfo) :
    countPolls (finalizeEvents gf jobId info) = 0
    ∧ countSleeps (finalizeEvents gf jobId info) = 0 := by
  unfold finalizeEvents
  split
  · split
    · cases gf <;> simp [countPolls, countSleeps]
    · simp [countPolls, countSleeps]
  · simp [countPolls, countSleeps]

/-- Unfolding one iteration whose poll raises. -/
lemma monitorLoop_step_error (getInfo : Nat → Except String JobInfo)
    (gf : Except String (List String)) (jobId : String) (i : Nat) (e : String)
    (h : getInfo i = .error e) (fuel : Nat) :
    monitorLoop getInfo gf jobId (fuel + 1) i = some [.poll, .logMonitorError e] := by
  simp [monitorLoop, h]

/-- Unfolding one iteration that observes a terminal snapshot. -/
lemma monitorLoop_step_terminal (getInfo : Nat → Except String JobInfo)
    (gf : Except String (List String)) (jobId : String) (i : Nat) (s : JobInfo)
    (h : getInfo i = .ok s) (ht : isTerminalState s.state = true) (fuel : Nat) :
    monitorLoop getInfo gf jobId (fuel + 1) i =
      some ([.poll, .logStatus s] ++ finalizeEvents gf jobId s) := by
  simp [monitorLoop, h, ht]

/-- Unfolding one iteration that observes a non-terminal snapshot:
poll, status log, 5-second suspension, then the next iteration. -/
lemma monitorLoop_step_nonterminal (getInfo : Nat → Except String JobInfo)
    (gf : Except String (List String)) (jobId : String) (i : Nat) (s : JobInfo)
    (h : getInfo i = .ok s) (ht : isTerminalState s.state = false) (fuel : Nat) :
    monitorLoop getInfo gf jobId (fuel + 1) i =
      (monitorLoop getInfo gf jobId fuel (i + 1)).map
        fun rest => [.poll, .logStatus s, .sleep 5000] ++ rest := by
  cases hrec : monitorLoop getInfo gf jobId fuel (i + 1) <;>
    simp [monitorLoop, h, ht, hrec]

/-- With only non-terminal snapshots, no amount of fuel terminates the
loop. -/
lemma monitorLoop_diverge (getInfo : Nat → Except String JobInfo)
    (gf : Except String (List String)) (jobId : String)
    (h : ∀ i, ∃ s, getInfo i = .ok s ∧ isTerminalState s.state = false) :
    ∀ fuel start, monitorLoop getInfo gf jobId fuel start = none := by
  intro fuel
  induction fuel with
  | zero => intro start; rfl
  | succ f ih =>
    intro start
    obtain ⟨s, hs, hts⟩ := h start
    rw [monitorLoop_step_nonterminal getInfo gf jobId start s hs hts f, ih (start + 1)]
    rfl

/-- Running past `n` non-terminal snapshots prepends a prefix with
exactly `n` polls, `n` suspensions and no fetches, and leaves the loop
at index `start + n` with `n` fewer units of fuel. -/
lemma monitorLoop_progress (getInfo : Nat → Except String JobInfo)
    (gf : Except String (List String)) (jobId : String) :
    ∀ (n start fuel : Nat), n < fuel →
    (∀ j, j < n → ∃ s, getInfo (start + j) = .ok s ∧ isTerminalState s.state = false) →
    ∃ pre, countPolls pre = n ∧ countSleeps pre = n ∧ countFetches pre = 0 ∧
      monitorLoop getInfo gf jobId fuel start =
        (monitorLoop getInfo gf jobId (fuel - n) (start + n)).map
          fun rest => pre ++ rest := by
  intro n
  induction n with
  | zero =>
    intro start fuel _ _
    refine ⟨[], rfl, rfl, rfl, ?_⟩
    cases hrec : monitorLoop getInfo gf jobId fuel start <;> simp [hrec]
  | succ n ih =>
    intro start fuel hlt hok
    obtain ⟨s0, h0, ht0⟩ := hok 0 (Nat.succ_pos n)
    rw [Nat.add_zero] at h0
    obtain ⟨f, rfl⟩ : ∃ f, fuel = f + 1 := ⟨fuel - 1, by omega⟩
    obtain ⟨pre, hp, hs, hf, heq⟩ := ih (start + 1) f (by omega)
      (by intro j hj
          have h := hok (j + 1) (by omega)
          have e : start + (j + 1) = start + 1 + j := by omega
          rwa [e] at h)
    refine ⟨[.poll, .logStatus s0, .sleep 5000] ++ pre, ?_, ?_, ?_, ?_⟩
    · rw [countPolls_append, hp]
      have h1 : countPolls [MonitorEvent.poll, .logStatus s0, .sleep 5000] = 1 := rfl
      omega
    · rw [countSleeps_append, hs]
      have h1 : countSleeps [MonitorEvent.poll, .logStatus s0, .sleep 5000] = 1 := rfl
      omega
    · rw [countFetches_append, hf]
      rfl
    · rw [monitorLoop_step_nonterminal getInfo gf jobId start s0 h0 ht0 f, heq,
        Option.map_map]
      have e1 : f + 1 - (n + 1) = f - n := by omega
      have e2 : start + (n + 1) = start + 1 + n := by omega
      rw [e1, e2]
      cases hm : monitorLoop getInfo gf jobId (f - n) (start + 1 + n) <;>
        simp [hm, Function.comp]

/-! ## C3 — terminal finalization -/

/-- C3: when the first poll observes a terminal snapshot the monitor
finalizes and terminates with that single poll and no suspension,
regardless of remaining fuel: a fully successful `JobComplete` emits
exactly one success log with the processed count; `JobComplete` with
failures fetches failed-record detail exactly once and logs it; `Failed`
or `Aborted` logs the terminal state. -/
theorem monitor_finalize (getInfo : Nat → Except String JobInfo)
    (gf : Except String (List String)) (jobId : String) (s : JobInfo)
    (h0 : getInfo 0 = .ok s) (hterm : isTerminalState s.state = true) :
    (∀ fuel, monitorBulkJob getInfo gf jobId (fuel + 1) =
        some ([.poll, .logStatus s] ++ finalizeEvents gf jobId s))
    ∧ countPolls ([.poll, .logStatus s] ++ finalizeEvents gf jobId s) = 1
    ∧ countSleeps ([.poll, .logStatus s] ++ finalizeEvents gf jobId s) = 0
    ∧ (s.state = "JobComplete" → s.numberRecordsFailed = 0 →
        finalizeEvents gf jobId s = [.logSuccess jobId s.numberRecordsProcessed]
        ∧ countSuccessLogs ([.poll, .logStatus s] ++ finalizeEvents gf jobId s) = 1)
    ∧ (s.state = "JobComplete" → 0 < s.numberRecordsFailed →
        countFetches (finalizeEvents gf jobId s) = 1
        ∧ ∀ results, gf = .ok results →
            finalizeEvents gf jobId s = [.fetchFailedResults, .logFailedRecords results])
    ∧ ((s.state = "Failed" ∨ s.state = "Aborted") →
        finalizeEvents gf jobId s = [.logTerminalError jobId s.state]) := by
  refine ⟨fun fuel => monitorLoop_step_terminal getInfo gf jobId 0 s h0 hterm fuel,
    ?_, ?_, ?_, ?_, ?_⟩
  · rw [countPolls_append, (finalizeEvents_counts gf jobId s).1]
    rfl
  · rw [countSleeps_append, (finalizeEvents_counts gf jobId s).2]
    rfl
  · intro hc hfz
    have hfin : finalizeEvents gf jobId s = [.logSuccess jobId s.numberRecordsProcessed] := by
      simp [finalizeEvents, hc, hfz]
    refine ⟨hfin, ?_⟩
    rw [hfin]
    rfl
  · intro hc hfp
    constructor
    · unfold finalizeEvents
      rw [if_pos hc, if_pos hfp]
      cases gf <;> rfl
    · intro results hgf
      simp [finalizeEvents, hc, hfp, hgf]
  · intro hc
    have hne : ¬ s.state = "JobComplete" := by
      rcases hc with h | h <;> rw [h] <;> decide
    simp [finalizeEvents, hne]

/-- C3 witness: a first poll returning `JobComplete` with zero failures
terminates after one poll with exactly the success log. -/
theorem monitor_finalize_witness :
    monitorBulkJob getInfoTermW (.ok []) "750x" 1 =
      some [.poll, .logStatus jobInfoJCW, .logSuccess "750x" 1000]
    ∧ countPolls [MonitorEvent.poll, .logStatus jobInfoJCW, .logSuccess "750x" 1000] = 1 := by
  have h := monitor_finalize getInfoTermW (.ok []) "750x" jobInfoJCW rfl rfl
  have h4 := (h.2.2.2.1 rfl rfl).1
  have h1 := h.1 0
  rw [h4] at h1
  exact ⟨h1, rfl⟩

/-! ## C4 — polling cadence and termination -/

/-- C4: the monitor terminates exactly when some poll observes a
terminal state or raises.  If every snapshot is non-terminal, no fuel
bound terminates the loop (it polls indefinitely); if the first `n`
snapshots are non-terminal and poll `n` is terminal or raises, the
monitor terminates with exactly `n + 1` polls separated by exactly `n`
5-second suspensions (none after the terminal snapshot). -/
theorem monitor_polling (getInfo : Nat → Except String JobInfo)
    (gf : Except String (List String)) (jobId : String) :
    ((∀ i, ∃ s, getInfo i = .ok s ∧ isTerminalState s.state = false) →
      ∀ fuel, monitorBulkJob getInfo gf jobId fuel = none)
    ∧ (∀ n : Nat,
        (∀ j, j < n → ∃ s, getInfo j = .ok s ∧ isTerminalState s.state = false) →
        ((∃ e, getInfo n = .error e) ∨
          ∃ s, getInfo n = .ok s ∧ isTerminalState s.state = true) →
        ∀ fuel, n < fuel →
        ∃ tr, monitorBulkJob getInfo gf jobId fuel = some tr ∧
          countPolls tr = n + 1 ∧ countSleeps tr = n) := by
  constructor
  · intro h fuel
    exact monitorLoop_diverge getInfo gf jobId h fuel 0
  · intro n hnt hterm fuel hlt
    obtain ⟨pre, hp, hs, _hf, heq⟩ := monitorLoop_progress getInfo gf jobId n 0 fuel hlt
      (by intro j hj; simpa using hnt j hj)
    rw [Nat.zero_add] at heq
    obtain ⟨m, hm⟩ : ∃ m, fuel - n = m + 1 := ⟨fuel - n - 1, by omega⟩
    rcases hterm with ⟨e, he⟩ | ⟨s, hsok, hst⟩
    · refine ⟨pre ++ [.poll, .logMonitorError e], ?_, ?_, ?_⟩
      · rw [monitorBulkJob, heq, hm, monitorLoop_step_error getInfo gf jobId n e he m]
        rfl
      · rw [countPolls_append, hp]
        rfl
      · rw [countSleeps_append, hs]
        rfl
    · refine ⟨pre ++ ([.poll, .logStatus s] ++ finalizeEvents gf jobId s), ?_, ?_, ?_⟩
      · rw [monitorBulkJob, heq, hm, monitorLoop_step_terminal getInfo gf jobId n s hsok hst m]
        rfl
      · rw [countPolls_append, countPolls_append, hp, (finalizeEvents_counts gf jobId s).1]
        rfl
      · rw [countSleeps_append, countSleeps_append, hs, (finalizeEvents_counts gf jobId s).2]
        rfl

/-- C4 witness: two non-terminal snapshots followed by a terminal one
yield exactly three polls and two suspensions. -/
theorem monitor_polling_witness :
    countPolls ((monitorBulkJob getInfoLoopW (.ok []) "750x" 3).getD []) = 3
    ∧ countSleeps ((monitorBulkJob getInfoLoopW (.ok []) "750x" 3).getD []) = 2
    ∧ (monitorBulkJob getInfoLoopW (.ok []) "750x" 3).isSome = true := by
  obtain ⟨tr, heq, hp, hs⟩ := (monitor_polling getInfoLoopW (.ok []) "750x").2 2
    (by intro j hj
        exact ⟨jobInfoIPW, by simp [getInfoLoopW, hj], rfl⟩)
    (Or.inr ⟨jobInfoJCW, by simp [getInfoLoopW], rfl⟩)
    3 (by omega)
  rw [heq]
  exact ⟨hp, hs, rfl⟩

/-! ## C5 — monitor exceptions are absorbed -/

/-- C5: a raise while polling terminates the monitor with the error
logged as the last event, the failed poll never retried (exactly `n + 1`
polls when poll `n` raises) and no fetch issued; a raise while fetching
failed-record detail likewise ends the trace with the logged error.  In
both cases `monitorBulkJob` returns a trace — its type has no error
channel, so nothing propagates to the hosting process. -/
theorem monitor_error_caught (getInfo : Nat → Except String JobInfo)
    (gf : Except String (List String)) (jobId : String) :
    (∀ (n : Nat) (e : String),
        (∀ j, j < n → ∃ s, getInfo j = .ok s ∧ isTerminalState s.state = false) →
        getInfo n = .error e →
        ∀ fuel, n < fuel →
        ∃ tr, monitorBulkJob getInfo gf jobId fuel = some tr
          ∧ countPolls tr = n + 1
          ∧ countFetches tr = 0
          ∧ tr.getLast? = some (.logMonitorError e))
    ∧ (∀ (s : JobInfo) (e : String),
        getInfo 0 = .ok s → s.state = "JobComplete" → 0 < s.numberRecordsFailed →
        gf = .error e →
        ∀ fuel, monitorBulkJob getInfo gf jobId (fuel + 1) =
          some [.poll, .logStatus s, .fetchFailedResults, .logMonitorError e]) := by
  constructor
  · intro n e hnt he fuel hlt
    obtain ⟨pre, hp, _hs, hf, heq⟩ := monitorLoop_progress getInfo gf jobId n 0 fuel hlt
      (by intro j hj; simpa using hnt j hj)
    rw [Nat.zero_add] at heq
    obtain ⟨m, hm⟩ : ∃ m, fuel - n = m + 1 := ⟨fuel - n - 1, by omega⟩
    refine ⟨pre ++ [.poll, .logMonitorError e], ?_, ?_, ?_, ?_⟩
    · rw [monitorBulkJob, heq, hm, monitorLoop_step_error getInfo gf jobId n e he m]
      rfl
    · rw [countPolls_append, hp]
      rfl
    · rw [countFetches_append, hf]
      rfl
    · rw [List.getLast?_append]
      rfl
  · intro s e h0 hc hfp hgf fuel
    rw [monitorBulkJob, monitorLoop_step_terminal getInfo gf jobId 0 s h0 (by rw [hc]; rfl) fuel]
    have hfin : finalizeEvents gf jobId s = [.fetchFailedResults, .logMonitorError e] := by
      unfold finalizeEvents
      rw [if_pos hc, if_pos hfp, hgf]
    rw [hfin]
    rfl

/-- C5 witness: a poll raising `ECONNRESET` after one non-terminal
snapshot ends the monitor with the logged error and no retry; a raising
failed-record fetch likewise ends the trace. -/
theorem monitor_error_caught_witness :
    countPolls ((monitorBulkJob getInfoErrW (.ok []) "750x" 2).getD []) = 2
    ∧ ((monitorBulkJob getInfoErrW (.ok []) "750x" 2).getD []).getLast? =
        some (.logMonitorError "ECONNRESET")
    ∧ monitorBulkJob getInfoPartialW (.error "fetch failed") "750x" 1 =
        some [.poll, .logStatus jobInfoPartialW, .fetchFailedResults,
          .logMonitorError "fetch failed"] := by
  obtain ⟨tr, heq, hp, _hf, hl⟩ := (monitor_error_caught getInfoErrW (.ok []) "750x").1
    1 "ECONNRESET"
    (by intro j hj
        have hj0 : j = 0 := by omega
        exact ⟨jobInfoIPW, by rw [hj0]; rfl, rfl⟩)
    rfl 2 (by omega)
  have h2 := (monitor_error_caught getInfoPartialW (.error "fetch failed") "750x").2
    jobInfoPartialW "fetch failed" rfl rfl (by decide) rfl 0
  rw [heq]
  exact ⟨hp, hl, h2⟩

/-! ## C9 — `/bulk-demo` matches the raw, untrimmed name -/

/-- C9: the `/bulk-demo` gate tests membership of the exact string
`'empty-org'` in the raw configured list and answers 400 when absent; a
comma-separated configuration with a space yields the entry
`" empty-org"`, which the gate rejects even though the fan-out endpoint
trims that same entry to `"empty-org"` before using it as its lookup
key. -/
theorem bulkDemo_membership_untrimmed :
    (∀ names : List String,
      bulkDemoGate names = .reject 400 "empty-org connection not found" ↔
        names.contains "empty-org" = false)
    ∧ connectionNamesOf (some "my-org, empty-org") = ["my-org", " empty-org"]
    ∧ bulkDemoGate (connectionNamesOf (some "my-org, empty-org")) =
        .reject 400 "empty-org connection not found"
    ∧ jsTrim " empty-org" = "empty-org"
    ∧ (∀ env : Env,
        (queryConnection env soqlQuery " empty-org").connectionName = "empty-org") := by
  refine ⟨?_, by decide, by decide, by decide, ?_⟩
  · intro names
    unfold bulkDemoGate
    by_cases h : names.contains "empty-org" <;> simp [h]
  · intro env
    rw [queryConnection_connectionName]
    decide

/-- C9 witness: the gate instantiated at the concrete configured list. -/
theorem bulkDemo_membership_untrimmed_witness :
    bulkDemoGate ["my-org", " empty-org"] =
      .reject 400 "empty-org connection not found" :=
  (bulkDemo_membership_untrimmed.1 ["my-org", " empty-org"]).mpr (by decide)

/-! ## C10 helper lemmas -/

lemma getD_mem_of_lt {α : Type} (l : List α) (i : Nat) (d : α) (h : i < l.length) :
    l.getD i d ∈ l := by
  rw [List.getD_eq_getElem?_getD, List.getElem?_eq_getElem h]
  simp [List.getElem_mem h]

lemma length_getD_le (l : List String) (i : Nat) (d : String) (n : Nat)
    (hl : ∀ x ∈ l, x.length ≤ n) (hd : d.length ≤ n) :
    (l.getD i d).length ≤ n := by
  by_cases h : i < l.length
  · exact hl _ (getD_mem_of_lt l i d h)
  · rw [List.getD_eq_getElem?_getD, List.getElem?_eq_none (Nat.le_of_not_lt h)]
    exact hd

lemma gbnType_length_le (i : Nat) : (gbnType i).length ≤ 10 := by
  apply length_getD_le
  · decide
  · decide

lemma gbnSuffix_length_le (s : String) : (gbnSuffix s).length ≤ 3 := by
  show (((s.data.drop 2).take (5 - 2)).map Char.toUpper).length ≤ 3
  rw [List.length_map]
  exact le_trans (List.length_take_le _ _) (by norm_num)

/-- Every format is the literal `'Bulk Account '` followed by the random
elements. -/
lemma gbnFormats_bulkAccountStart (ti ni ii : Nat) (nowS randS : String) :
    ∀ s ∈ gbnFormats ti ni ii nowS randS, ∃ rest, s = "Bulk Account " ++ rest := by
  intro s hs
  simp only [gbnFormats, List.mem_cons, List.not_mem_nil, or_false] at hs
  rcases hs with h | h | h | h <;> exact ⟨_, h⟩

/-- A string with the `'Bulk Account '` prefix matches the SQL pattern
`'Bulk Account%'`. -/
lemma likeBulkAccount_of_eq_append (s rest : String)
    (h : s = "Bulk Account " ++ rest) : likeBulkAccount s = true := by
  subst h
  apply decide_eq_true
  show ("Bulk Account".data : List Char) <+: ("Bulk Account " ++ rest).data
  rw [String.data_append]
  have hd : ("Bulk Account " : String).data = ("Bulk Account" : String).data ++ [' '] := by
    decide
  rw [hd, List.append_assoc]
  exact List.prefix_append _ _

/-! ## C10 — generated names satisfy the guard's pattern -/

/-- C10: every `generateBusinessName()` output starts with
`'Bulk Account '` (hence matches the `Name LIKE 'Bulk Account%'`
pattern of the pre-submission existence check) and is at most 255
characters long, and so does every `Name` value in the 1000 bulk
data-table rows — the caller-side idempotence guard covers all records
this demo creates. -/
theorem generateBusinessName_guard_sound :
    (∀ (ti ni ii fi : Nat) (nowS randS : String),
      (∃ rest, generateBusinessName ti ni ii fi nowS randS = "Bulk Account " ++ rest)
      ∧ (generateBusinessName ti ni ii fi nowS randS).length ≤ 255
      ∧ likeBulkAccount (generateBusinessName ti ni ii fi nowS randS) = true)
    ∧ (∀ (pick : Nat → Nat × Nat × Nat × Nat × String × String) (s : String),
        s ∈ bulkDataTableNames pick →
        likeBulkAccount s = true ∧ s.length ≤ 255) := by
  have main : ∀ (ti ni ii fi : Nat) (nowS randS : String),
      (∃ rest, generateBusinessName ti ni ii fi nowS randS = "Bulk Account " ++ rest)
      ∧ (generateBusinessName ti ni ii fi nowS randS).length ≤ 255 := by
    intro ti ni ii fi nowS randS
    have hlen4 : (gbnFormats ti ni ii nowS randS).length = 4 := rfl
    have hmem : (gbnFormats ti ni ii nowS randS).getD
        (fi % (gbnFormats ti ni ii nowS randS).length) "" ∈
          gbnFormats ti ni ii nowS randS := by
      apply getD_mem_of_lt
      rw [hlen4]
      exact Nat.mod_lt _ (by norm_num)
    by_cases hbig : ((gbnFormats ti ni ii nowS randS).getD
        (fi % (gbnFormats ti ni ii nowS randS).length) "").length > 255
    · have hgbn : generateBusinessName ti ni ii fi nowS randS =
          "Bulk Account " ++ (gbnType ti ++ " " ++ gbnSuffix randS) := by
        simp only [generateBusinessName]
        rw [if_pos hbig]
      rw [hgbn]
      refine ⟨⟨_, rfl⟩, ?_⟩
      rw [String.length_append, String.length_append, String.length_append]
      have h1 := gbnType_length_le ti
      have h2 := gbnSuffix_length_le randS
      have h3 : ("Bulk Account " : String).length = 13 := rfl
      have h4 : (" " : String).length = 1 := rfl
      omega
    · have hgbn : generateBusinessName ti ni ii fi nowS randS =
          (gbnFormats ti ni ii nowS randS).getD
            (fi % (gbnFormats ti ni ii nowS randS).length) "" := by
        simp only [generateBusinessName]
        rw [if_neg hbig]
      rw [hgbn]
      exact ⟨gbnFormats_bulkAccountStart ti ni ii nowS randS _ hmem, by omega⟩
  constructor
  · intro ti ni ii fi nowS randS
    obtain ⟨⟨rest, hrest⟩, hle⟩ := main ti ni ii fi nowS randS
    exact ⟨⟨rest, hrest⟩, hle, likeBulkAccount_of_eq_append _ rest hrest⟩
  · intro pick s hs
    obtain ⟨i, -, hi⟩ := List.mem_map.mp hs
    rcases hp : pick i with ⟨ti, ni, ii, fi, nowS, randS⟩
    rw [hp] at hi
    obtain ⟨⟨rest, hrest⟩, hle⟩ := main ti ni ii fi nowS randS
    rw [← hi]
    exact ⟨likeBulkAccount_of_eq_append _ rest hrest, hle⟩

/-- C10 witness: a concrete generated row name matches the guard's
pattern and the length bound. -/
theorem generateBusinessName_guard_sound_witness :
    likeBulkAccount (generateBusinessName 0 0 0 0 "1730000000000" "0.k7q2m9x") = true
    ∧ (generateBusinessName 0 0 0 0 "1730000000000" "0.k7q2m9x").length ≤ 255 :=
  generateBusinessName_guard_sound.2 pickW
    (generateBusinessName 0 0 0 0 "1730000000000" "0.k7q2m9x")
    (List.mem_map.mpr ⟨0, List.mem_range.mpr (by norm_num), rfl⟩)

end AppLink
